import Mathlib

/-!
Shallow embedding of the MongoDB transfer bot (`src/bot.py`) and proofs of
the spec's claims about it.

The embedding models:
* the in-memory `user_sessions` store (a map from chat id to a session with
  optional `source_uri` / `target_uri` fields),
* the `set_source` / `set_target` configuration handlers,
* the `_get_database` endpoint resolver (built on Python's `str.split`),
* the `transfer` orchestrator, as a pure function of the session store and a
  database environment that decides the outcome of each external call
  (connection construction, `find`, `insert_many`).

`transfer` returns a trace of events (connection open/close, read, write,
replies sent) mirroring the statement order of the Python code, including the
releases performed by the `with` block on each exit path, plus the final
contents of the target collection.
-/

/-- Documents are opaque values copied verbatim; we model them as naturals. -/
abbrev Doc := Nat

/-- Python exceptions relevant to `transfer`: the code distinguishes only
`pymongo.errors.PyMongoError` from every other `Exception`, each carrying a
message used in the reply. -/
inductive PyError where
  | pyMongo (msg : String)
  | other (msg : String)
deriving DecidableEq, Repr

/-- One per-chat session: `user_sessions[chat_id]` is a dict that may hold
`source_uri` and/or `target_uri` keys; absent keys are `none`. -/
structure Session where
  source_uri : Option String := none
  target_uri : Option String := none
deriving DecidableEq, Repr

/-- The global `user_sessions` dict: chat id to session, `none` when the
identity has never configured anything. -/
def SessionStore := Nat → Option Session

/-- Structured form of every reply text `transfer`, `set_source` and
`set_target` can send. -/
inductive Reply where
  | usageError
  | configMissing
  | noDocs
  | success (count : Nat) (src tgt : String)
  | mongoError (msg : String)
  | unexpectedError (msg : String)
  | sourceUriSet
  | targetUriSet
  | sourceUriUsage
  | targetUriUsage
deriving DecidableEq, Repr

/-- The literal reply strings of `bot.py` for each structured reply. -/
def replyText : Reply → String
  | .usageError => "❌ Usage: /transfer <source_collection> <target_collection>"
  | .configMissing => "❌ Please set both source and target URIs first!"
  | .noDocs => "ℹ️ No documents found in source collection"
  | .success n s t =>
      s!"✅ Successfully transferred {n} documents " ++ s!"from {s} to {t}"
  | .mongoError m => s!"❌ MongoDB Error: {m}"
  | .unexpectedError m => s!"❌ Unexpected error: {m}"
  | .sourceUriSet => "✅ Source URI set successfully!"
  | .targetUriSet => "✅ Target URI set successfully!"
  | .sourceUriUsage => "❌ Please provide a MongoDB URI. Usage: /set_source <URI>"
  | .targetUriUsage => "❌ Please provide a MongoDB URI. Usage: /set_target <URI>"

/-- `set_source`: on empty argument list reply with usage text; otherwise
create the session if absent and overwrite `source_uri` with the first
argument (`context.args[0]`). Returns the updated store and the replies sent. -/
def set_source (store : SessionStore) (chat : Nat) (args : List String) :
    SessionStore × List Reply :=
  match args with
  | [] => (store, [.sourceUriUsage])
  | u :: _ =>
      let s := (store chat).getD {}
      (fun c => if c = chat then some { s with source_uri := some u } else store c,
       [.sourceUriSet])

/-- `set_target`: symmetric to `set_source` for `target_uri`. -/
def set_target (store : SessionStore) (chat : Nat) (args : List String) :
    SessionStore × List Reply :=
  match args with
  | [] => (store, [.targetUriUsage])
  | u :: _ =>
      let s := (store chat).getD {}
      (fun c => if c = chat then some { s with target_uri := some u } else store c,
       [.targetUriSet])

/-- Python's `s.split(c)` for a single-character separator: accumulator holds
the current piece reversed. `"".split(c) = [""]`, `"/".split('/') = ["",""]`. -/
def splitAux (c : Char) : List Char → List Char → List (List Char)
  | [], acc => [acc.reverse]
  | x :: xs, acc =>
      if x = c then acc.reverse :: splitAux c xs []
      else splitAux c xs (x :: acc)

/-- Python's `s.split(c)` on a character list. -/
def pySplit (c : Char) (s : List Char) : List (List Char) :=
  splitAux c s []

/-- The endpoint resolver: `uri.split('/')[-1].split('?')[0]` — the substring
after the final `/`, truncated at the first `?`. -/
def resolve_database_name (uri : String) : String :=
  String.mk ((pySplit '?' ((pySplit '/' uri.data).getLastD [])).headD [])

/-- A database handle selected from a connection string: an explicit name, or
the connection's default database when the extracted name is empty. -/
inductive DbSel where
  | named (name : String)
  | defaultDb
deriving DecidableEq, Repr

/-- `_get_database`: `client[db_name] if db_name else client.get_database()`. -/
def _get_database (uri : String) : DbSel :=
  let db_name := resolve_database_name uri
  if db_name = "" then .defaultDb else .named db_name

/-- The database environment: outcome of each external call `transfer` makes.
`connectSrc`/`connectTgt` are the results of constructing the two
`MongoClient`s, `find` the bulk read on a database/collection, `insert_many`
the bulk write. -/
structure DBEnv where
  connectSrc : Except PyError Unit
  connectTgt : Except PyError Unit
  find : DbSel → String → Except PyError (List Doc)
  insert_many : DbSel → String → List Doc → Except PyError Unit

/-- Events emitted by one `transfer` invocation, in statement order. -/
inductive Ev where
  | openSrc
  | closeSrc
  | openTgt
  | closeTgt
  | readDocs
  | writeDocs
  | reply (r : Reply)
deriving DecidableEq, Repr

/-- Result of one `transfer` invocation: the event trace and the final
contents of the target collection. -/
structure TransferResult where
  trace : List Ev
  tgtDocs : List Doc
deriving DecidableEq, Repr

/-- The reply for a caught exception: `except errors.PyMongoError` replies
with the MongoDB-error text, `except Exception` with the unexpected-error
text, both carrying `str(e)`. -/
def errorReply : PyError → Reply
  | .pyMongo m => .mongoError m
  | .other m => .unexpectedError m

/-- The `transfer` handler. Mirrors `bot.py` lines 92-132: usage check on the
argument list, session completeness check, then inside `try`: open both
clients with `with` (released on every exit), resolve the two databases, bulk
read, empty-source short-circuit, bulk insert, success reply; `except`
clauses convert any raised error into a single reply. `tgt0` is the prior
contents of the target collection. -/
def transfer (store : SessionStore) (chat : Nat) (args : List String)
    (env : DBEnv) (tgt0 : List Doc) : TransferResult :=
  let session := (store chat).getD {}
  if args.isEmpty || args.length != 2 then
    { trace := [.reply .usageError], tgtDocs := tgt0 }
  else if session.source_uri.isNone || session.target_uri.isNone then
    { trace := [.reply .configMissing], tgtDocs := tgt0 }
  else
    let src_collection := args.getD 0 ""
    let tgt_collection := args.getD 1 ""
    let src_uri := session.source_uri.getD ""
    let tgt_uri := session.target_uri.getD ""
    match env.connectSrc with
    | .error e => { trace := [.reply (errorReply e)], tgtDocs := tgt0 }
    | .ok _ =>
      match env.connectTgt with
      | .error e =>
          { trace := [.openSrc, .closeSrc, .reply (errorReply e)], tgtDocs := tgt0 }
      | .ok _ =>
        let src_db := _get_database src_uri
        let tgt_db := _get_database tgt_uri
        match env.find src_db src_collection with
        | .error e =>
            { trace := [.openSrc, .openTgt, .closeTgt, .closeSrc,
                        .reply (errorReply e)],
              tgtDocs := tgt0 }
        | .ok docs =>
          if docs.isEmpty then
            { trace := [.openSrc, .openTgt, .readDocs, .reply .noDocs,
                        .closeTgt, .closeSrc],
              tgtDocs := tgt0 }
          else
            match env.insert_many tgt_db tgt_collection docs with
            | .error e =>
                { trace := [.openSrc, .openTgt, .readDocs, .closeTgt, .closeSrc,
                            .reply (errorReply e)],
                  tgtDocs := tgt0 }
            | .ok _ =>
                { trace := [.openSrc, .openTgt, .readDocs, .writeDocs,
                            .reply (.success docs.length src_collection tgt_collection),
                            .closeTgt, .closeSrc],
                  tgtDocs := tgt0 ++ docs }

/-- Extract the reply carried by an event, if any. -/
def replyOf : Ev → Option Reply
  | .reply r => some r
  | _ => none

/-- The replies sent during a trace, in order. -/
def sentReplies (t : List Ev) : List Reply :=
  t.filterMap replyOf

/-- Whether an event opens the source connection. -/
def isOpenSrc : Ev → Bool
  | .openSrc => true
  | _ => false

/-- Whether an event closes the source connection. -/
def isCloseSrc : Ev → Bool
  | .closeSrc => true
  | _ => false

/-- Whether an event opens the target connection. -/
def isOpenTgt : Ev → Bool
  | .openTgt => true
  | _ => false

/-- Whether an event closes the target connection. -/
def isCloseTgt : Ev → Bool
  | .closeTgt => true
  | _ => false

/-- Whether an event is the bulk write. -/
def isWrite : Ev → Bool
  | .writeDocs => true
  | _ => false

/-- A trace leaks no connection: each connection is closed as often as it is
opened. -/
def balanced (t : List Ev) : Prop :=
  t.countP isOpenSrc = t.countP isCloseSrc ∧ t.countP isOpenTgt = t.countP isCloseTgt

/-! ### Lemmas about `pySplit` (Python's single-character `str.split`) -/

/-- `splitAux` never returns the empty list. -/
theorem splitAux_ne_nil (c : Char) :
    ∀ (s acc : List Char), splitAux c s acc ≠ [] := by
  intro s
  induction s with
  | nil => intro acc; simp [splitAux]
  | cons x xs ih =>
    intro acc
    by_cases hx : x = c
    · simp [splitAux, hx]
    · simpa [splitAux, hx] using ih (x :: acc)

/-- Every character in a piece of `splitAux c s acc` comes from `acc` or `s`. -/
theorem mem_of_mem_splitAux (c : Char) :
    ∀ (s acc l : List Char), l ∈ splitAux c s acc →
      ∀ d, d ∈ l → d ∈ acc ∨ d ∈ s := by
  intro s
  induction s with
  | nil =>
    intro acc l hl d hd
    simp [splitAux] at hl
    subst hl
    exact Or.inl (by simpa using hd)
  | cons x xs ih =>
    intro acc l hl d hd
    by_cases hx : x = c
    · simp [splitAux, hx] at hl
      rcases hl with hl | hl
      · subst hl
        exact Or.inl (by simpa using hd)
      · rcases ih [] l hl d hd with h | h
        · simp at h
        · exact Or.inr (List.mem_cons_of_mem _ h)
    · simp only [splitAux, if_neg hx] at hl
      rcases ih (x :: acc) l hl d hd with h | h
      · rcases List.mem_cons.mp h with h | h
        · exact Or.inr (by simp [h])
        · exact Or.inl h
      · exact Or.inr (List.mem_cons_of_mem _ h)

/-- The separator occurs in no piece of `splitAux`, provided it is not in the
accumulator. -/
theorem sep_not_mem_splitAux (c : Char) :
    ∀ (s acc l : List Char), c ∉ acc → l ∈ splitAux c s acc → c ∉ l := by
  intro s
  induction s with
  | nil =>
    intro acc l hacc hl
    simp [splitAux] at hl
    subst hl
    simpa using hacc
  | cons x xs ih =>
    intro acc l hacc hl
    by_cases hx : x = c
    · simp [splitAux, hx] at hl
      rcases hl with hl | hl
      · subst hl; simpa using hacc
      · exact ih [] l (by simp) hl
    · simp only [splitAux, if_neg hx] at hl
      refine ih (x :: acc) l ?_ hl
      intro hc
      rcases List.mem_cons.mp hc with h | h
      · exact hx h.symm
      · exact hacc h

/-- If the separator is absent, `splitAux` returns one piece. -/
theorem splitAux_of_not_mem (c : Char) :
    ∀ (s acc : List Char), c ∉ s → splitAux c s acc = [acc.reverse ++ s] := by
  intro s
  induction s with
  | nil => intro acc _; simp [splitAux]
  | cons x xs ih =>
    intro acc hs
    have hx : x ≠ c := fun h => hs (by simp [h])
    have hxs : c ∉ xs := fun h => hs (List.mem_cons_of_mem _ h)
    simp only [splitAux, if_neg hx]
    rw [ih (x :: acc) hxs]
    simp

/-- `pySplit` never returns the empty list. -/
theorem pySplit_ne_nil (c : Char) (s : List Char) : pySplit c s ≠ [] :=
  splitAux_ne_nil c s []

/-- The separator occurs in no piece of `pySplit`. -/
theorem sep_not_mem_pySplit (c : Char) (s l : List Char) (hl : l ∈ pySplit c s) :
    c ∉ l :=
  sep_not_mem_splitAux c s [] l (by simp) hl

/-- Every character in a piece of `pySplit c s` occurs in `s`. -/
theorem mem_of_mem_pySplit (c : Char) (s l : List Char) (hl : l ∈ pySplit c s)
    (d : Char) (hd : d ∈ l) : d ∈ s := by
  rcases mem_of_mem_splitAux c s [] l hl d hd with h | h
  · simp at h
  · exact h

/-- If the separator is absent, `pySplit c s = [s]`. -/
theorem pySplit_of_not_mem (c : Char) (s : List Char) (hs : c ∉ s) :
    pySplit c s = [s] := by
  simpa using splitAux_of_not_mem c s [] hs

/-- `headD` of a nonempty list is a member. -/
theorem headD_mem_of_ne_nil {α : Type} (l : List α) (d : α) (h : l ≠ []) :
    l.headD d ∈ l := by
  cases l with
  | nil => exact absurd rfl h
  | cons a t => simp

/-- `getLastD` of a nonempty list is a member. -/
theorem getLastD_mem_of_ne_nil {α : Type} :
    ∀ (l : List α) (d : α), l ≠ [] → l.getLastD d ∈ l := by
  intro l
  induction l with
  | nil => intro d h; exact absurd rfl h
  | cons a t ih =>
    intro d _
    cases t with
    | nil => simp
    | cons b u =>
      rw [List.getLastD_cons]
      exact List.mem_cons_of_mem _ (ih a (by simp))

/-- The resolved database name contains neither `/` nor `?`. -/
theorem resolve_database_name_chars (uri : String) :
    '/' ∉ (resolve_database_name uri).data ∧
    '?' ∉ (resolve_database_name uri).data := by
  set t : List Char := (pySplit '/' uri.data).getLastD [] with ht
  have htmem : t ∈ pySplit '/' uri.data :=
    getLastD_mem_of_ne_nil _ _ (pySplit_ne_nil '/' uri.data)
  have hslash_t : '/' ∉ t := sep_not_mem_pySplit '/' uri.data t htmem
  set r : List Char := (pySplit '?' t).headD [] with hr
  have hrmem : r ∈ pySplit '?' t :=
    headD_mem_of_ne_nil _ _ (pySplit_ne_nil '?' t)
  have hq : '?' ∉ r := sep_not_mem_pySplit '?' t r hrmem
  have hslash : '/' ∉ r := fun h => hslash_t (mem_of_mem_pySplit '?' t r hrmem '/' h)
  exact ⟨hslash, hq⟩

/-- On a string free of `/` and `?` the resolver is the identity. -/
theorem resolve_database_name_fixed (s : String)
    (h1 : '/' ∉ s.data) (h2 : '?' ∉ s.data) :
    resolve_database_name s = s := by
  unfold resolve_database_name
  rw [pySplit_of_not_mem '/' s.data h1]
  rw [show ([s.data] : List (List Char)).getLastD [] = s.data from rfl]
  rw [pySplit_of_not_mem '?' s.data h2]
  cases s
  rfl

/-- C8: `resolve_database_name` is a pure total function on strings: it
returns the substring after the final `/` truncated at the first `?`, the
spec's two examples evaluate as stated, the empty result selects the
connection's default database, and the function is idempotent. -/
theorem C8_resolve_database_name_pure :
    resolve_database_name "mongodb://h/dbname?x=1" = "dbname" ∧
    resolve_database_name "mongodb://h/" = "" ∧
    _get_database "mongodb://h/" = DbSel.defaultDb ∧
    ∀ s : String, resolve_database_name (resolve_database_name s) =
      resolve_database_name s := by
  refine ⟨rfl, rfl, rfl, ?_⟩
  intro s
  obtain ⟨h1, h2⟩ := resolve_database_name_chars s
  exact resolve_database_name_fixed _ h1 h2

/-! ### Concrete fixtures used by witnesses and counterexamples -/

/-- Whether an event is the usage-error reply. -/
def isUsageReply : Ev → Bool
  | .reply .usageError => true
  | _ => false

/-- A fully configured session. -/
def sessW : Session :=
  { source_uri := some "mongodb://h/sdb", target_uri := some "mongodb://h/tdb" }

/-- A session with only the source URI configured. -/
def sessHalf : Session :=
  { source_uri := some "mongodb://h/sdb" }

/-- A store where identity 0 is fully configured and no other identity is. -/
def storeW : SessionStore :=
  fun c => if c = 0 then some sessW else none

/-- A store where identity 0 has only the source URI configured. -/
def storeHalf : SessionStore :=
  fun c => if c = 0 then some sessHalf else none

/-- A store with no identity configured. -/
def emptyStore : SessionStore :=
  fun _ => none

/-- An environment where every database call succeeds and the source
collection holds three documents. -/
def envOk : DBEnv :=
  { connectSrc := .ok ()
    connectTgt := .ok ()
    find := fun _ _ => .ok [1, 2, 3]
    insert_many := fun _ _ _ => .ok () }

/-- An environment whose source collection is empty. -/
def envEmptyFind : DBEnv :=
  { envOk with find := fun _ _ => .ok [] }

/-- An environment where constructing the source client raises a
`PyMongoError`. -/
def envConnFail : DBEnv :=
  { envOk with connectSrc := .error (.pyMongo "boom") }

/-- An environment where the bulk write raises a `PyMongoError`. -/
def envWriteFail : DBEnv :=
  { envOk with insert_many := fun _ _ _ => .error (.pyMongo "boom") }

/-- An environment where constructing the source client raises an exception
that is not a `PyMongoError`. -/
def envOtherFail : DBEnv :=
  { envOk with connectSrc := .error (.other "weird") }

/-! ### Claim theorems -/

/-- C2: on every execution path of `transfer` — usage error, missing
configuration, connection failure at either endpoint, read failure, empty
source, write failure, success — exactly one reply is sent to the operator
and no exception escapes (the embedding is a total function whose trace
carries exactly one reply). -/
theorem C2_exactly_one_reply (store : SessionStore) (chat : Nat)
    (args : List String) (env : DBEnv) (tgt0 : List Doc) :
    (sentReplies (transfer store chat args env tgt0).trace).length = 1 := by
  simp only [transfer]
  repeat' split
  all_goals rfl

/-- C9: every connection opened by `transfer` is closed again before it
returns, on every execution path: the trace contains as many close events as
open events for each of the two connections. -/
theorem C9_connections_released (store : SessionStore) (chat : Nat)
    (args : List String) (env : DBEnv) (tgt0 : List Doc) :
    balanced (transfer store chat args env tgt0).trace := by
  simp only [transfer]
  repeat' split
  all_goals constructor <;> rfl

/-- C1: happy path — for a configured session and a source collection holding
`docs ≠ []`, `transfer` bulk-inserts exactly those documents: the target ends
as its prior contents followed by the source documents, and the single
success reply reports the count `docs.length` with the source and target
collection names. -/
theorem C1_happy_path (store : SessionStore) (chat : Nat) (src dst : String)
    (env : DBEnv) (tgt0 : List Doc) (sess : Session) (su tu : String)
    (docs : List Doc)
    (hstore : store chat = some sess)
    (hsu : sess.source_uri = some su) (htu : sess.target_uri = some tu)
    (hc1 : env.connectSrc = .ok ()) (hc2 : env.connectTgt = .ok ())
    (hfind : env.find (_get_database su) src = .ok docs)
    (hne : docs ≠ [])
    (hins : env.insert_many (_get_database tu) dst docs = .ok ()) :
    (transfer store chat [src, dst] env tgt0).tgtDocs = tgt0 ++ docs ∧
    sentReplies (transfer store chat [src, dst] env tgt0).trace =
      [Reply.success docs.length src dst] := by
  simp only [transfer, hstore, Option.getD_some, hsu, htu, hc1, hc2,
    List.getD_cons_zero, List.getD_cons_succ, hfind, hins]
  simp [hne, sentReplies, replyOf]

/-- C1 witness: a concrete three-document transfer. -/
theorem C1_happy_path_witness :
    (transfer storeW 0 ["src", "dst"] envOk []).tgtDocs = [1, 2, 3] ∧
    sentReplies (transfer storeW 0 ["src", "dst"] envOk []).trace =
      [Reply.success 3 "src" "dst"] :=
  C1_happy_path storeW 0 "src" "dst" envOk [] sessW
    "mongodb://h/sdb" "mongodb://h/tdb" [1, 2, 3]
    rfl rfl rfl rfl rfl rfl (by decide) rfl

/-- C5: a session that exists but lacks one of the two URIs makes a
two-argument `transfer` fail with the configuration-missing reply; no
connection is opened and the target is untouched. -/
theorem C5_incomplete_session (store : SessionStore) (chat : Nat)
    (a b : String) (env : DBEnv) (tgt0 : List Doc) (sess : Session)
    (hstore : store chat = some sess)
    (hmiss : sess.source_uri = none ∨ sess.target_uri = none) :
    sentReplies (transfer store chat [a, b] env tgt0).trace =
      [Reply.configMissing] ∧
    (transfer store chat [a, b] env tgt0).trace.countP isOpenSrc = 0 ∧
    (transfer store chat [a, b] env tgt0).trace.countP isOpenTgt = 0 ∧
    (transfer store chat [a, b] env tgt0).tgtDocs = tgt0 := by
  rcases hmiss with h | h
  · simp [transfer, hstore, h, sentReplies, replyOf, isOpenSrc, isOpenTgt]
  · simp [transfer, hstore, h, sentReplies, replyOf, isOpenSrc, isOpenTgt]

/-- C5 witness: identity 0 of `storeHalf` has a source URI but no target
URI. -/
theorem C5_incomplete_session_witness :
    sentReplies (transfer storeHalf 0 ["a", "b"] envOk []).trace =
      [Reply.configMissing] ∧
    (transfer storeHalf 0 ["a", "b"] envOk []).trace.countP isOpenSrc = 0 ∧
    (transfer storeHalf 0 ["a", "b"] envOk []).trace.countP isOpenTgt = 0 ∧
    (transfer storeHalf 0 ["a", "b"] envOk []).tgtDocs = [] :=
  C5_incomplete_session storeHalf 0 "a" "b" envOk [] sessHalf rfl (Or.inr rfl)

/-- C7: empty-source short-circuit — when the bulk read of a configured
transfer yields zero documents, the single reply is the informational
no-documents notice, no write occurs and the target collection is left
unmodified. -/
theorem C7_empty_source (store : SessionStore) (chat : Nat)
    (a b : String) (env : DBEnv) (tgt0 : List Doc) (sess : Session)
    (su tu : String)
    (hstore : store chat = some sess)
    (hsu : sess.source_uri = some su) (htu : sess.target_uri = some tu)
    (hc1 : env.connectSrc = .ok ()) (hc2 : env.connectTgt = .ok ())
    (hfind : env.find (_get_database su) a = .ok []) :
    sentReplies (transfer store chat [a, b] env tgt0).trace = [Reply.noDocs] ∧
    (transfer store chat [a, b] env tgt0).tgtDocs = tgt0 ∧
    (transfer store chat [a, b] env tgt0).trace.countP isWrite = 0 := by
  simp only [transfer, hstore, Option.getD_some, hsu, htu, hc1, hc2,
    List.getD_cons_zero, List.getD_cons_succ, hfind]
  simp [sentReplies, replyOf, isWrite]

/-- C7 witness: a concrete configured transfer whose source collection is
empty. -/
theorem C7_empty_source_witness :
    sentReplies (transfer storeW 0 ["empty", "dest"] envEmptyFind []).trace =
      [Reply.noDocs] ∧
    (transfer storeW 0 ["empty", "dest"] envEmptyFind []).tgtDocs = [] ∧
    (transfer storeW 0 ["empty", "dest"] envEmptyFind []).trace.countP isWrite
      = 0 :=
  C7_empty_source storeW 0 "empty" "dest" envEmptyFind [] sessW
    "mongodb://h/sdb" "mongodb://h/tdb" rfl rfl rfl rfl rfl rfl

/-- C3 counterexample: a connection failure and a bulk-write failure produce
the identical user-visible reply — the single MongoDB-error classification —
so the two kinds are not distinct user-visible classifications. -/
theorem C3_counterexample :
    sentReplies (transfer storeW 0 ["src", "dst"] envConnFail []).trace =
      [Reply.mongoError "boom"] ∧
    sentReplies (transfer storeW 0 ["src", "dst"] envWriteFail []).trace =
      [Reply.mongoError "boom"] ∧
    replyText (Reply.mongoError "boom") = "❌ MongoDB Error: boom" :=
  ⟨rfl, rfl, rfl⟩

/-- C3 amended: failures are classified by Python exception type only — any
`PyMongoError`, whether raised at connection acquisition or at the bulk
read/write, is reported under the single MongoDB-error reply carrying the
underlying message, while any other exception is reported under the distinct
unexpected-error reply; connection and data-operation failures are not
distinguished from each other. -/
theorem C3_error_classification (store : SessionStore) (chat : Nat)
    (a b : String) (env1 env2 env3 : DBEnv) (tgt0 : List Doc)
    (sess : Session) (su tu m m' : String) (docs : List Doc)
    (hstore : store chat = some sess)
    (hsu : sess.source_uri = some su) (htu : sess.target_uri = some tu)
    (h1 : env1.connectSrc = .error (.pyMongo m))
    (h2a : env2.connectSrc = .ok ()) (h2b : env2.connectTgt = .ok ())
    (h2c : env2.find (_get_database su) a = .ok docs)
    (h2d : docs ≠ [])
    (h2e : env2.insert_many (_get_database tu) b docs = .error (.pyMongo m))
    (h3 : env3.connectSrc = .error (.other m')) :
    sentReplies (transfer store chat [a, b] env1 tgt0).trace =
      [Reply.mongoError m] ∧
    sentReplies (transfer store chat [a, b] env2 tgt0).trace =
      [Reply.mongoError m] ∧
    sentReplies (transfer store chat [a, b] env3 tgt0).trace =
      [Reply.unexpectedError m'] ∧
    Reply.mongoError m ≠ Reply.unexpectedError m' := by
  refine ⟨?_, ?_, ?_, by simp⟩
  · simp [transfer, hstore, hsu, htu, h1, sentReplies, replyOf, errorReply]
  · simp only [transfer, hstore, Option.getD_some, hsu, htu, h2a, h2b,
      List.getD_cons_zero, List.getD_cons_succ, h2c, h2e]
    simp [h2d, sentReplies, replyOf, errorReply]
  · simp [transfer, hstore, hsu, htu, h3, sentReplies, replyOf, errorReply]

/-- C3 witness: concrete environments failing at the connection, at the bulk
write, and with a non-PyMongo exception. -/
theorem C3_error_classification_witness :
    sentReplies (transfer storeW 0 ["src", "dst"] envConnFail []).trace =
      [Reply.mongoError "boom"] ∧
    sentReplies (transfer storeW 0 ["src", "dst"] envWriteFail []).trace =
      [Reply.mongoError "boom"] ∧
    sentReplies (transfer storeW 0 ["src", "dst"] envOtherFail []).trace =
      [Reply.unexpectedError "weird"] ∧
    Reply.mongoError "boom" ≠ Reply.unexpectedError "weird" :=
  C3_error_classification storeW 0 "src" "dst"
    envConnFail envWriteFail envOtherFail [] sessW
    "mongodb://h/sdb" "mongodb://h/tdb" "boom" "weird" [1, 2, 3]
    rfl rfl rfl rfl rfl rfl rfl (by decide) rfl rfl

/-- C4 counterexample: an identity that never configured anything, calling
`transfer` with a single argument, receives the usage-error reply, not the
configuration-missing reply — so the claim's "for all argument lists
(including wrong argument counts)" fails. -/
theorem C4_counterexample :
    sentReplies (transfer emptyStore 0 ["onlyone"] envOk []).trace =
      [Reply.usageError] ∧
    Reply.usageError ≠ Reply.configMissing :=
  ⟨rfl, by decide⟩

/-- C4 amended: for an identity that never configured any URI, `transfer`
replies with the configuration-missing error whenever exactly two arguments
are supplied; with any other argument count the usage check fires first and
the reply is the usage error. -/
theorem C4_unconfigured_identity (store : SessionStore) (chat : Nat)
    (args : List String) (env : DBEnv) (tgt0 : List Doc)
    (hstore : store chat = none) :
    sentReplies (transfer store chat args env tgt0).trace =
      (if args.length = 2 then [Reply.configMissing] else [Reply.usageError]) := by
  by_cases h : args.length = 2
  · have hne : args.isEmpty = false := by
      cases args with
      | nil => simp at h
      | cons x xs => rfl
    simp [transfer, hstore, hne, h, sentReplies, replyOf]
  · simp [transfer, hstore, h, sentReplies, replyOf]

/-- C4 witness: the unconfigured identity 0 with two arguments receives the
configuration-missing reply. -/
theorem C4_unconfigured_identity_witness :
    sentReplies (transfer emptyStore 0 ["a", "b"] envOk []).trace =
      (if ([("a" : String), "b"].length = 2) then [Reply.configMissing]
       else [Reply.usageError]) :=
  C4_unconfigured_identity emptyStore 0 ["a", "b"] envOk [] rfl

/-- C6 counterexample: a call with two arguments one of which is the empty
string does not fail with the usage error — the usage check passes and (for
an unconfigured identity) the configuration-missing reply is sent instead. -/
theorem C6_counterexample :
    sentReplies (transfer emptyStore 0 ["", "x"] envOk []).trace =
      [Reply.configMissing] ∧
    sentReplies (transfer emptyStore 0 ["", "x"] envOk []).trace ≠
      [Reply.usageError] :=
  ⟨rfl, by decide⟩

/-- The error reply for a caught exception is never the usage-error reply. -/
theorem isUsageReply_errorReply (e : PyError) :
    isUsageReply (Ev.reply (errorReply e)) = false := by
  cases e <;> rfl

/-- C6 amended: `transfer` fails with the usage error and takes no further
action (single-reply trace, target unmodified) exactly when the number of
supplied arguments differs from two; non-emptiness of the argument strings
is not checked. -/
theorem C6_usage_check (store : SessionStore) (chat : Nat)
    (args : List String) (env : DBEnv) (tgt0 : List Doc) :
    if args.length = 2 then
      (transfer store chat args env tgt0).trace.countP isUsageReply = 0
    else
      transfer store chat args env tgt0 =
        { trace := [Ev.reply Reply.usageError], tgtDocs := tgt0 } := by
  by_cases h : args.length = 2
  · have hne : args.isEmpty = false := by
      cases args with
      | nil => simp at h
      | cons x xs => rfl
    rw [if_pos h]
    simp only [transfer, hne, h]
    repeat' split
    all_goals try rfl
    all_goals try (cases ‹PyError› <;> rfl)
    all_goals simp_all
  · rw [if_neg h]
    simp [transfer, h]

/-- C10: `set_source` and `set_target` called with more than one argument
succeed, store exactly the first argument as the URI, leave the other URI
field of the session unchanged (the stored session is the old one with only
the addressed field replaced), and send the success acknowledgement. -/
theorem C10_extra_args_ignored (store : SessionStore) (chat : Nat)
    (u : String) (rest : List String) :
    (set_source store chat (u :: rest)).1 chat =
      some { (store chat).getD {} with source_uri := some u } ∧
    (set_source store chat (u :: rest)).2 = [Reply.sourceUriSet] ∧
    (set_target store chat (u :: rest)).1 chat =
      some { (store chat).getD {} with target_uri := some u } ∧
    (set_target store chat (u :: rest)).2 = [Reply.targetUriSet] := by
  refine ⟨?_, rfl, ?_, rfl⟩ <;> simp [set_source, set_target]
